import Mathlib

/-!
Verification of the SVEN contrastive security-prefix training pipeline
(cs260-project): a shallow embedding of the pair schema, the dataset and
model registries, the prefix module persistence, the model wrapper's
generation and loss paths, the trainer's dry-run path and the evaluation
metrics container, with theorems settling the specified contracts.
-/

set_option linter.unusedVariables false

namespace Sven

/-! ## Pair schema (sven_data/schemas.py) -/

/-- The list of supported languages, mirroring the membership check in
`VulnerabilityPair.__post_init__`: `self.language in ["python", "java", "cpp"]`. -/
def supportedLanguages : List String := ["python", "java", "cpp"]

/-- `VulnerabilityPair` dataclass fields (sven_data/schemas.py). The diff mask
entries are modelled as naturals, as in the source (`List[int]`). -/
structure VulnerabilityPair where
  vulnerable_code : String
  fixed_code : String
  diff_mask : List Nat
  cwe_id : String
  language : String
  commit_id : Option String
  repo_name : Option String
  file_path : Option String
  deriving DecidableEq, Repr

/-- Construction of a `VulnerabilityPair`, running the `__post_init__` asserts
in source order. A failed `assert` raises `AssertionError`, modelled as
`Except.error` carrying the assert message. -/
def mkVulnerabilityPair (vulnerable_code fixed_code : String) (diff_mask : List Nat)
    (cwe_id language : String) (commit_id repo_name file_path : Option String) :
    Except String VulnerabilityPair :=
  if vulnerable_code = "" then .error "vulnerable_code cannot be empty"
  else if fixed_code = "" then .error "fixed_code cannot be empty"
  else if diff_mask.length = 0 then .error "diff_mask must have at least one element"
  else if language ∉ supportedLanguages then .error ("Invalid language: " ++ language)
  else .ok { vulnerable_code, fixed_code, diff_mask, cwe_id, language,
             commit_id, repo_name, file_path }

/-- `GeneratedCode` dataclass (sven_data/schemas.py): the two evaluation
fields default to `None` at construction by the model. -/
structure GeneratedCode where
  code : String
  is_secure_mode : Bool
  prompt : String
  language : String
  security_violations : Option (List String)
  is_functionally_correct : Option Bool
  deriving DecidableEq, Repr

/-! ## CodeGenWrapper.compute_loss (models/codegen_wrapper.py) -/

/-- A value in the loss mapping: a plain Python float (the `torch is None`
branch) or a scalar tensor (`torch.tensor(0.0)`). The numeric value is kept
as a rational; the source only ever produces the constant zero here. -/
inductive LossVal where
  | pyFloat (q : Rat)
  | tensor (q : Rat)
  deriving DecidableEq, Repr

/-- `CodeGenWrapper.compute_loss`: the Week 1 placeholder returns a dict of
zeros; when torch is missing they are Python floats, otherwise zero tensors. -/
def compute_loss (torchAvailable : Bool) (input_ids labels diff_mask : List Int) :
    List (String × LossVal) :=
  if torchAvailable = false then
    [("lm_loss", .pyFloat 0), ("contrastive_loss", .pyFloat 0),
     ("kl_loss", .pyFloat 0), ("total_loss", .pyFloat 0)]
  else
    [("lm_loss", .tensor 0), ("contrastive_loss", .tensor 0),
     ("kl_loss", .tensor 0), ("total_loss", .tensor 0)]

/-! ## CodeGenWrapper.generate (models/codegen_wrapper.py) -/

/-- The literal tag opening the dry-run placeholder code, from the f-string
in `CodeGenWrapper.generate`. -/
def dryRunTag : String := "# [DRY RUN] Generated placeholder for: "

/-- The placeholder code built when the backbone stack is unavailable. -/
def dryRunCode (prompt : String) : String := dryRunTag ++ prompt ++ "\npass\n"

/-- Errors `generate` could surface. `runtimeError` models the
`RuntimeError` raised by `_ensure_loaded`; `invalidArgument` models the
argument error the surrounding contracts speak of. The source of
`CodeGenWrapper.generate` raises neither on its own paths. -/
inductive GenError where
  | runtimeError (msg : String)
  | invalidArgument (msg : String)
  deriving DecidableEq, Repr

/-- The opaque backbone generation service: prompt, max_length, temperature
and top_p to decoded text (`transformers` generation plus decode). -/
def Backbone : Type := String → Int → Rat → Rat → String

/-- `CodeGenWrapper.generate`. `backboneAvailable` is false exactly when
`AutoModelForCausalLM is None or AutoTokenizer is None or torch is None`,
in which case the tagged placeholder `GeneratedCode` is returned; otherwise
the backbone runs and its decoded text is wrapped. No validation of
`max_length` occurs on either path. -/
def generate (backboneAvailable : Bool) (backbone : Backbone) (secure : Bool)
    (prompt : String) (max_length : Int) (temperature top_p : Rat)
    (language : String) : Except GenError GeneratedCode :=
  if backboneAvailable = false then
    .ok { code := dryRunCode prompt, is_secure_mode := secure, prompt,
          language, security_violations := none, is_functionally_correct := none }
  else
    .ok { code := backbone prompt max_length temperature top_p,
          is_secure_mode := secure, prompt, language,
          security_violations := none, is_functionally_correct := none }

/-! ## Registries (data/interfaces.py, models/interfaces.py)

A Python dict is modelled as an association list with insertion-order
semantics: assignment to an existing key replaces in place, a new key is
appended; `list(d.keys())` is the key list in that order. -/

/-- Python dict assignment `d[k] = v`. -/
def dictSet {α : Type} : List (String × α) → String → α → List (String × α)
  | [], k, v => [(k, v)]
  | (k', v') :: rest, k, v =>
      if k' = k then (k, v) :: rest else (k', v') :: dictSet rest k v

/-- Python dict lookup `d[k]` / `k in d`. -/
def dictGet? {α : Type} : List (String × α) → String → Option α
  | [], _ => none
  | (k', v') :: rest, k => if k' = k then some v' else dictGet? rest k

/-- `list(d.keys())`. -/
def dictKeys {α : Type} (d : List (String × α)) : List String := d.map Prod.fst

/-- A dataset-loader class registered in `DatasetRegistry`; classes are
opaque and distinguished by identity. -/
structure LoaderClass where
  classId : Nat
  deriving DecidableEq, Repr

/-- An instance produced by calling a loader class: `cls._loaders[name]()`. -/
structure LoaderInstance where
  classOf : LoaderClass
  deriving DecidableEq, Repr

/-- Zero-argument instantiation of a loader class. -/
def instantiateLoader (c : LoaderClass) : LoaderInstance := ⟨c⟩

/-- A model class registered in `ModelRegistry`. -/
structure ModelClass where
  classId : Nat
  deriving DecidableEq, Repr

/-- An instance produced by `cls._models[name](**kwargs)`; it records the
class and the keyword arguments it was constructed with. -/
structure ModelInstance where
  classOf : ModelClass
  kwargs : List (String × String)
  deriving DecidableEq, Repr

/-- Instantiation of a model class with keyword arguments. -/
def instantiateModel (c : ModelClass) (kwargs : List (String × String)) :
    ModelInstance := ⟨c, kwargs⟩

/-- The lookup failures of the two registries. The source raises `ValueError`
whose message interpolates the missing name and `list(... .keys())`; the
constructors carry exactly those two pieces. -/
inductive RegistryError where
  | unknownDataset (name : String) (available : List String)
  | unknownModel (name : String) (available : List String)
  deriving DecidableEq, Repr

/-- `DatasetRegistry.register`: plain dict assignment, no conflict check. -/
def DatasetRegistry_register (reg : List (String × LoaderClass)) (name : String)
    (loader_class : LoaderClass) : List (String × LoaderClass) :=
  dictSet reg name loader_class

/-- `DatasetRegistry.get_loader`: raise listing the registered names when
absent, otherwise instantiate the registered class. -/
def DatasetRegistry_get_loader (reg : List (String × LoaderClass)) (name : String) :
    Except RegistryError LoaderInstance :=
  match dictGet? reg name with
  | none => .error (.unknownDataset name (dictKeys reg))
  | some c => .ok (instantiateLoader c)

/-- `ModelRegistry.register`: plain dict assignment, no conflict check. -/
def ModelRegistry_register (reg : List (String × ModelClass)) (name : String)
    (model_class : ModelClass) : List (String × ModelClass) :=
  dictSet reg name model_class

/-- `ModelRegistry.get_model`: raise listing the registered names when
absent, otherwise instantiate the registered class with the kwargs. -/
def ModelRegistry_get_model (reg : List (String × ModelClass)) (name : String)
    (kwargs : List (String × String)) : Except RegistryError ModelInstance :=
  match dictGet? reg name with
  | none => .error (.unknownModel name (dictKeys reg))
  | some c => .ok (instantiateModel c kwargs)

/-! ## Prefix module persistence (prefix_tuning/secure_prefix.py) -/

/-- `PrefixConfig` dataclass. -/
structure PrefixConfig where
  prefix_length : Nat
  hidden_dim : Nat
  init : String
  deriving DecidableEq, Repr

/-- A two-dimensional parameter tensor, kept by shape; the random float
entries produced by `torch.randn(...) * 0.02` are opaque and summarised by
an identifier, so that copying of stored parameters is observable. -/
structure Tensor2 where
  rows : Nat
  cols : Nat
  data : Nat
  deriving DecidableEq, Repr

/-- `BasePrefixTuning`: a module holding the config and the learnable
embedding block `[prefix_length, hidden_dim]`. -/
structure BasePrefixTuning where
  config : PrefixConfig
  prefix_emb : Tensor2
  deriving DecidableEq, Repr

/-- `BasePrefixTuning.__init__`: the embedding block is freshly initialised
with shape `[config.prefix_length, config.hidden_dim]`; `randomData`
identifies the random draw. -/
def mkBasePrefixTuning (config : PrefixConfig) (randomData : Nat) : BasePrefixTuning :=
  { config, prefix_emb := ⟨config.prefix_length, config.hidden_dim, randomData⟩ }

/-- `get_prefix_embeddings`: returns the current (detached) block. -/
def get_prefix_embeddings (m : BasePrefixTuning) : Tensor2 := m.prefix_emb

/-- A saved checkpoint: `torch.save` of the state dict plus the config. -/
structure Checkpoint where
  state_dict : Tensor2
  config : PrefixConfig
  deriving DecidableEq, Repr

/-- `BasePrefixTuning.save`. -/
def prefixSave (m : BasePrefixTuning) : Checkpoint := ⟨m.prefix_emb, m.config⟩

/-- Failure of `nn.Module.load_state_dict` when a stored parameter's size
disagrees with the module's parameter (a torch `RuntimeError`). -/
inductive LoadError where
  | stateDictSizeMismatch
  deriving DecidableEq, Repr

/-- `nn.Module.load_state_dict`: copies the stored tensor into the module
when the shapes agree, otherwise errors. -/
def load_state_dict (m : BasePrefixTuning) (t : Tensor2) :
    Except LoadError BasePrefixTuning :=
  if t.rows = m.prefix_emb.rows ∧ t.cols = m.prefix_emb.cols then
    .ok { m with prefix_emb := t }
  else .error .stateDictSizeMismatch

/-- `BasePrefixTuning.load`: rebuild a config from the stored dict,
construct a fresh module from it, then load the stored state dict. Note it
never compares the stored config with any caller expectation. -/
def prefixLoad (ckpt : Checkpoint) (freshData : Nat) :
    Except LoadError BasePrefixTuning :=
  let cfg := ckpt.config
  let obj := mkBasePrefixTuning cfg freshData
  load_state_dict obj ckpt.state_dict

/-! ## CodeGenWrapper state and Trainer (models/codegen_wrapper.py, training/train.py) -/

/-- The wrapper state relevant to checkpointing: the secure/vulnerable mode
flag and the owned prefix module (built in `__init__` from the wrapper's
`prefix_length`/`prefix_hidden_dim`). -/
structure CodeGenWrapper where
  model_name : String
  secure : Bool
  prefix_module : BasePrefixTuning
  deriving DecidableEq, Repr

/-- `CodeGenWrapper.__init__` body relevant here: builds the prefix module
from the given lengths with `init = "random"` (the dataclass default). -/
def mkCodeGenWrapper (model_name : String) (secure : Bool)
    (prefix_length prefix_hidden_dim : Nat) (randomData : Nat) : CodeGenWrapper :=
  { model_name, secure,
    prefix_module :=
      mkBasePrefixTuning ⟨prefix_length, prefix_hidden_dim, "random"⟩ randomData }

/-- `CodeGenWrapper.load_checkpoint`: replaces the prefix module with the
loaded one; the base model is untouched. No shape comparison against the
wrapper's own configuration happens. -/
def load_checkpoint (w : CodeGenWrapper) (ckpt : Checkpoint) (freshData : Nat) :
    Except LoadError CodeGenWrapper :=
  match prefixLoad ckpt freshData with
  | .error e => .error e
  | .ok pm => .ok { w with prefix_module := pm }

/-- `TrainerConfig` dataclass. -/
structure TrainerConfig where
  num_epochs : Nat
  dry_run : Bool
  deriving DecidableEq, Repr

/-- Observable outcome of `Trainer.train()`: how many `generate` and
`compute_loss` calls were issued and whether the dataset registry was
consulted (train.py never references `DatasetRegistry`). -/
structure TrainResult where
  generateCalls : Nat
  computeLossCalls : Nat
  datasetRegistryTouched : Bool
  deriving DecidableEq, Repr

/-- `Trainer.train`: the dry-run branch issues exactly one generation with
the sample prompt and the `generate` defaults (`max_length = 128`,
`temperature = 0.8`, `top_p = 0.95`, `language = "python"`) and returns;
the full-run branch exercises `compute_loss` once per epoch on fake
tensors. Neither branch touches the dataset registry. -/
def trainerTrain (model : CodeGenWrapper) (cfg : TrainerConfig)
    (backboneAvailable torchAvailable : Bool) (backbone : Backbone) :
    Except GenError TrainResult :=
  if cfg.dry_run then
    match generate backboneAvailable backbone model.secure
        "def add(a, b):\n    return a + b\n" 128 (4/5) (19/20) "python" with
    | .error e => .error e
    | .ok _ =>
        .ok { generateCalls := 1, computeLossCalls := 0,
              datasetRegistryTouched := false }
  else
    .ok { generateCalls := 0, computeLossCalls := cfg.num_epochs,
          datasetRegistryTouched := false }

/-! ## EvaluationMetrics (evaluation/interfaces.py) -/

/-- A value of the `to_dict()` mapping: Python `None`, the float
`security_rate`, the int `total_vulnerabilities`, or one of the two
sub-dicts. -/
inductive MetricValue where
  | noneV
  | rat (q : Rat)
  | int (n : Int)
  | ratDict (d : List (String × Rat))
  | natDict (d : List (String × Nat))
  deriving DecidableEq, Repr

/-- `EvaluationMetrics` attribute state after `__init__`. -/
structure EvaluationMetrics where
  security_rate : Option Rat
  pass_at_k : List (String × Rat)
  total_vulnerabilities : Option Int
  cwe_breakdown : List (String × Nat)
  deriving DecidableEq, Repr

/-- `EvaluationMetrics.__init__`: every argument defaults to `None`;
`pass_at_k or ` the empty dict and `cwe_breakdown or ` the empty dict turn a
`None` (or empty) argument into an empty dict, while `security_rate` and
`total_vulnerabilities` are stored as given. -/
def mkEvaluationMetrics (security_rate : Option Rat)
    (pass_at_k : Option (List (String × Rat))) (total_vulnerabilities : Option Int)
    (cwe_breakdown : Option (List (String × Nat))) : EvaluationMetrics :=
  { security_rate,
    pass_at_k := match pass_at_k with | none => [] | some d => d,
    total_vulnerabilities,
    cwe_breakdown := match cwe_breakdown with | none => [] | some d => d }

/-- `EvaluationMetrics.to_dict`. -/
def to_dict (m : EvaluationMetrics) : List (String × MetricValue) :=
  [("security_rate", match m.security_rate with | none => .noneV | some q => .rat q),
   ("pass_at_k", .ratDict m.pass_at_k),
   ("total_vulnerabilities",
     match m.total_vulnerabilities with | none => .noneV | some n => .int n),
   ("cwe_breakdown", .natDict m.cwe_breakdown)]

/-! ## Helper lemmas -/

theorem strAppendAssoc (a b c : String) : a ++ b ++ c = a ++ (b ++ c) := by
  apply String.ext
  simp [String.data_append, List.append_assoc]

theorem dictGet?_eq_none_of_not_mem {α : Type} (reg : List (String × α)) (k : String)
    (h : k ∉ dictKeys reg) : dictGet? reg k = none := by
  induction reg with
  | nil => rfl
  | cons p rest ih =>
      obtain ⟨k', v'⟩ := p
      simp only [dictKeys, List.map_cons, List.mem_cons, not_or] at h
      simp only [dictGet?, if_neg (fun hk : k' = k => h.1 hk.symm)]
      exact ih h.2

theorem dictGet?_dictSet_self {α : Type} (reg : List (String × α)) (k : String) (v : α) :
    dictGet? (dictSet reg k v) k = some v := by
  induction reg with
  | nil => simp [dictSet, dictGet?]
  | cons p rest ih =>
      obtain ⟨k', v'⟩ := p
      by_cases hk : k' = k
      · simp [dictSet, dictGet?, hk]
      · simp [dictSet, dictGet?, hk, ih]

/-! ## Claim theorems -/

/-- C1: `compute_loss` always returns a mapping with exactly the four keys
`lm_loss`, `contrastive_loss`, `kl_loss`, `total_loss`, and when the backbone
stack (torch) is unavailable all four values are the Python float zero. -/
theorem compute_loss_keys_and_zero (torchAvailable : Bool)
    (input_ids labels diff_mask : List Int) :
    (compute_loss torchAvailable input_ids labels diff_mask).map Prod.fst =
      ["lm_loss", "contrastive_loss", "kl_loss", "total_loss"] ∧
    (torchAvailable = false →
      compute_loss torchAvailable input_ids labels diff_mask =
        [("lm_loss", .pyFloat 0), ("contrastive_loss", .pyFloat 0),
         ("kl_loss", .pyFloat 0), ("total_loss", .pyFloat 0)]) := by
  cases torchAvailable <;> simp [compute_loss]

/-- Witness for C1 at a concrete input with the backbone stack unavailable. -/
theorem compute_loss_keys_and_zero_witness :
    (compute_loss false [1] [2] [0]).map Prod.fst =
      ["lm_loss", "contrastive_loss", "kl_loss", "total_loss"] ∧
    compute_loss false [1] [2] [0] =
      [("lm_loss", .pyFloat 0), ("contrastive_loss", .pyFloat 0),
       ("kl_loss", .pyFloat 0), ("total_loss", .pyFloat 0)] :=
  ⟨(compute_loss_keys_and_zero false [1] [2] [0]).1,
   (compute_loss_keys_and_zero false [1] [2] [0]).2 rfl⟩

/-- C2: constructing a `VulnerabilityPair` succeeds exactly when
`vulnerable_code` and `fixed_code` are non-empty, `diff_mask` is non-empty
and `language` is one of python/java/cpp; any successfully constructed pair
satisfies all four conditions. -/
theorem vulnerabilityPair_validation (vc fc : String) (dm : List Nat)
    (cwe lang : String) (ci rn fp : Option String) :
    ((∃ p, mkVulnerabilityPair vc fc dm cwe lang ci rn fp = .ok p) ↔
      (vc ≠ "" ∧ fc ≠ "" ∧ dm.length > 0 ∧ lang ∈ supportedLanguages)) ∧
    (∀ p, mkVulnerabilityPair vc fc dm cwe lang ci rn fp = .ok p →
      p.vulnerable_code ≠ "" ∧ p.fixed_code ≠ "" ∧ p.diff_mask.length > 0 ∧
      p.language ∈ supportedLanguages) := by
  unfold mkVulnerabilityPair
  constructor
  · split_ifs with h1 h2 h3 h4 <;>
      simp_all [Nat.pos_iff_ne_zero]
  · intro p hp
    split_ifs at hp with h1 h2 h3 h4
    cases hp
    exact ⟨h1, h2, Nat.pos_of_ne_zero h3, h4⟩

/-- Witness for C2 at a concrete valid pair. -/
theorem vulnerabilityPair_validation_witness :
    (∃ p, mkVulnerabilityPair "a" "b" [1] "CWE-089" "python" none none none = .ok p) ∧
    ("a" ≠ "" ∧ "b" ≠ "" ∧ ([1] : List Nat).length > 0 ∧ "python" ∈ supportedLanguages) :=
  ⟨(vulnerabilityPair_validation "a" "b" [1] "CWE-089" "python" none none none).1.mpr
      (by decide),
   by decide⟩

/-- C3: with the backbone unavailable, `generate` still returns a
well-formed `GeneratedCode` carrying the given prompt, language and the
model's secure/vulnerable flag, and its code field opens with the literal
dry-run tag so callers can tell it from real output. -/
theorem generate_backbone_unavailable (backbone : Backbone) (secure : Bool)
    (prompt : String) (max_length : Int) (temperature top_p : Rat)
    (language : String) :
    generate false backbone secure prompt max_length temperature top_p language =
      .ok { code := dryRunCode prompt, is_secure_mode := secure, prompt,
            language, security_violations := none,
            is_functionally_correct := none } ∧
    (∃ rest, dryRunCode prompt = dryRunTag ++ rest) := by
  refine ⟨rfl, ⟨prompt ++ "\npass\n", ?_⟩⟩
  exact strAppendAssoc dryRunTag prompt "\npass\n"

/-- C4: looking up an unregistered name fails with the unknown-name error
carrying the list of currently registered names, for both registries. -/
theorem unknown_name_lookup_fails (dreg : List (String × LoaderClass))
    (mreg : List (String × ModelClass)) (name : String)
    (kwargs : List (String × String))
    (hd : name ∉ dictKeys dreg) (hm : name ∉ dictKeys mreg) :
    DatasetRegistry_get_loader dreg name =
      .error (.unknownDataset name (dictKeys dreg)) ∧
    ModelRegistry_get_model mreg name kwargs =
      .error (.unknownModel name (dictKeys mreg)) := by
  unfold DatasetRegistry_get_loader ModelRegistry_get_model
  rw [dictGet?_eq_none_of_not_mem dreg name hd,
      dictGet?_eq_none_of_not_mem mreg name hm]
  exact ⟨rfl, rfl⟩

/-- Witness for C4 at concrete registries not containing the name. -/
theorem unknown_name_lookup_fails_witness :
    DatasetRegistry_get_loader [("big_vul", ⟨1⟩)] "nope" =
      .error (.unknownDataset "nope" ["big_vul"]) ∧
    ModelRegistry_get_model [("codegen", ⟨1⟩)] "nope" [] =
      .error (.unknownModel "nope" ["codegen"]) :=
  unknown_name_lookup_fails [("big_vul", ⟨1⟩)] [("codegen", ⟨1⟩)] "nope" []
    (by decide) (by decide)

/-- C5: after registering a constructor under a name, looking the name up
succeeds and returns an instance of that constructor, for both registries. -/
theorem register_then_get (dreg : List (String × LoaderClass))
    (mreg : List (String × ModelClass)) (name : String) (lc : LoaderClass)
    (mc : ModelClass) (kwargs : List (String × String)) :
    DatasetRegistry_get_loader (DatasetRegistry_register dreg name lc) name =
      .ok (instantiateLoader lc) ∧
    (instantiateLoader lc).classOf = lc ∧
    ModelRegistry_get_model (ModelRegistry_register mreg name mc) name kwargs =
      .ok (instantiateModel mc kwargs) ∧
    (instantiateModel mc kwargs).classOf = mc := by
  unfold DatasetRegistry_get_loader ModelRegistry_get_model
    DatasetRegistry_register ModelRegistry_register
  rw [dictGet?_dictSet_self, dictGet?_dictSet_self]
  exact ⟨rfl, rfl, rfl, rfl⟩

/-- C6 counterexample: a second `register` under the same name does not
fail; it silently replaces the stored constructor, so the subsequent lookup
returns an instance of the second class, not the first. -/
theorem register_conflict_counterexample :
    DatasetRegistry_register (DatasetRegistry_register [] "x" ⟨1⟩) "x" ⟨2⟩ =
      [("x", (⟨2⟩ : LoaderClass))] ∧
    DatasetRegistry_get_loader
      (DatasetRegistry_register (DatasetRegistry_register [] "x" ⟨1⟩) "x" ⟨2⟩) "x" =
      .ok (instantiateLoader ⟨2⟩) ∧
    (⟨2⟩ : LoaderClass) ≠ ⟨1⟩ ∧
    ModelRegistry_register (ModelRegistry_register [] "x" ⟨1⟩) "x" ⟨2⟩ =
      [("x", (⟨2⟩ : ModelClass))] ∧
    ModelRegistry_get_model
      (ModelRegistry_register (ModelRegistry_register [] "x" ⟨1⟩) "x" ⟨2⟩) "x" [] =
      .ok (instantiateModel ⟨2⟩ []) ∧
    (⟨2⟩ : ModelClass) ≠ ⟨1⟩ :=
  ⟨rfl, rfl, by decide, rfl, rfl, by decide⟩

/-- C6 (amended): a second `register` under the same name silently
overwrites the entry; the lookup afterwards returns an instance of the new
constructor, for both registries. -/
theorem register_overwrites (dreg : List (String × LoaderClass))
    (mreg : List (String × ModelClass)) (name : String) (c1 c2 : LoaderClass)
    (m1 m2 : ModelClass) (kwargs : List (String × String)) :
    DatasetRegistry_get_loader
      (DatasetRegistry_register (DatasetRegistry_register dreg name c1) name c2)
      name = .ok (instantiateLoader c2) ∧
    ModelRegistry_get_model
      (ModelRegistry_register (ModelRegistry_register mreg name m1) name m2)
      name kwargs = .ok (instantiateModel m2 kwargs) := by
  unfold DatasetRegistry_get_loader ModelRegistry_get_model
    DatasetRegistry_register ModelRegistry_register
  rw [dictGet?_dictSet_self, dictGet?_dictSet_self]
  exact ⟨rfl, rfl⟩

/-- C7 counterexample: with the backbone unavailable, `generate` called
with `max_length = 0` returns a `GeneratedCode` instead of failing with
`InvalidArgument`. -/
theorem generate_nonpositive_length_counterexample :
    generate false (fun _ _ _ _ => "") true "p" 0 (4/5) (19/20) "python" =
      .ok { code := dryRunCode "p", is_secure_mode := true, prompt := "p",
            language := "python", security_violations := none,
            is_functionally_correct := none } := rfl

/-- C7 (amended): `generate` performs no validation of `max_length`; with
`max_length ≤ 0` it still returns a `GeneratedCode` on every path rather
than failing with `InvalidArgument`. -/
theorem generate_no_max_length_validation (backboneAvailable : Bool)
    (backbone : Backbone) (secure : Bool) (prompt : String) (max_length : Int)
    (temperature top_p : Rat) (language : String) (h : max_length ≤ 0) :
    ∃ gc, generate backboneAvailable backbone secure prompt max_length
        temperature top_p language = .ok gc := by
  cases backboneAvailable <;> exact ⟨_, rfl⟩

/-- Witness for the amended C7 at a concrete non-positive length. -/
theorem generate_no_max_length_validation_witness :
    ∃ gc, generate false (fun _ _ _ _ => "") true "p" 0 (4/5) (19/20) "python" =
      .ok gc :=
  generate_no_max_length_validation false (fun _ _ _ _ => "") true "p" 0
    (4/5) (19/20) "python" (by decide)

/-- C8 counterexample: a wrapper instantiated with `prefix_length = 20`,
`hidden_dim = 512` accepts a checkpoint saved from a module with config
`(5, 7)` without any `CheckpointShapeMismatch`: `load_checkpoint` succeeds
and the resulting prefix module has the checkpoint's shape, which differs
from the wrapper's configured shape. -/
theorem checkpoint_mismatch_counterexample :
    load_checkpoint (mkCodeGenWrapper "Salesforce/codegen-350M-mono" true 20 512 0)
        (prefixSave (mkBasePrefixTuning ⟨5, 7, "random"⟩ 1)) 2 =
      .ok { model_name := "Salesforce/codegen-350M-mono", secure := true,
            prefix_module := mkBasePrefixTuning ⟨5, 7, "random"⟩ 1 } ∧
    (mkBasePrefixTuning ⟨5, 7, "random"⟩ 1).prefix_emb.rows ≠ 20 ∧
    (mkBasePrefixTuning ⟨5, 7, "random"⟩ 1).prefix_emb.cols ≠ 512 := by
  refine ⟨?_, by decide, by decide⟩
  rfl

/-- C8 (amended): loading a checkpoint produced by `save` succeeds and
reconstructs a module whose embedding block has the `[prefix_length,
hidden_dim]` shape recorded in the stored `PrefixConfig`; no comparison
against the instantiating wrapper's own configuration is made —
`load_checkpoint` succeeds on any wrapper, silently adopting the stored
shape. The hypotheses state the module invariant every module built by the
code satisfies. -/
theorem checkpoint_roundtrip_shape (m : BasePrefixTuning)
    (hr : m.prefix_emb.rows = m.config.prefix_length)
    (hc : m.prefix_emb.cols = m.config.hidden_dim)
    (freshData : Nat) (w : CodeGenWrapper) :
    prefixLoad (prefixSave m) freshData = .ok m ∧
    m.prefix_emb.rows = (prefixSave m).config.prefix_length ∧
    m.prefix_emb.cols = (prefixSave m).config.hidden_dim ∧
    load_checkpoint w (prefixSave m) freshData =
      .ok { w with prefix_module := m } := by
  have hload : prefixLoad (prefixSave m) freshData = .ok m := by
    unfold prefixLoad prefixSave load_state_dict mkBasePrefixTuning
    rw [if_pos ⟨hr, hc⟩]
  refine ⟨hload, hr, hc, ?_⟩
  unfold load_checkpoint
  rw [hload]

/-- Witness for the amended C8 at a concrete module and wrapper. -/
theorem checkpoint_roundtrip_shape_witness :
    prefixLoad (prefixSave (mkBasePrefixTuning ⟨3, 4, "random"⟩ 9)) 7 =
      .ok (mkBasePrefixTuning ⟨3, 4, "random"⟩ 9) ∧
    (mkBasePrefixTuning ⟨3, 4, "random"⟩ 9).prefix_emb.rows =
      (prefixSave (mkBasePrefixTuning ⟨3, 4, "random"⟩ 9)).config.prefix_length ∧
    (mkBasePrefixTuning ⟨3, 4, "random"⟩ 9).prefix_emb.cols =
      (prefixSave (mkBasePrefixTuning ⟨3, 4, "random"⟩ 9)).config.hidden_dim ∧
    load_checkpoint (mkCodeGenWrapper "m" true 20 512 0)
        (prefixSave (mkBasePrefixTuning ⟨3, 4, "random"⟩ 9)) 7 =
      .ok { mkCodeGenWrapper "m" true 20 512 0 with
            prefix_module := mkBasePrefixTuning ⟨3, 4, "random"⟩ 9 } :=
  checkpoint_roundtrip_shape (mkBasePrefixTuning ⟨3, 4, "random"⟩ 9) rfl rfl 7
    (mkCodeGenWrapper "m" true 20 512 0)

/-- C9: in dry-run mode `Trainer.train()` terminates without error for any
backbone/torch availability, issues exactly one `generate` call, performs no
`compute_loss` call and never touches the dataset registry. -/
theorem dry_run_train (model : CodeGenWrapper) (cfg : TrainerConfig)
    (backboneAvailable torchAvailable : Bool) (backbone : Backbone)
    (h : cfg.dry_run = true) :
    trainerTrain model cfg backboneAvailable torchAvailable backbone =
      .ok { generateCalls := 1, computeLossCalls := 0,
            datasetRegistryTouched := false } := by
  unfold trainerTrain
  rw [if_pos h]
  cases backboneAvailable <;> rfl

/-- Witness for C9 at a concrete dry-run trainer with the backbone
unavailable. -/
theorem dry_run_train_witness :
    trainerTrain (mkCodeGenWrapper "m" true 20 512 0) ⟨1, true⟩ false false
        (fun _ _ _ _ => "") =
      .ok { generateCalls := 1, computeLossCalls := 0,
            datasetRegistryTouched := false } :=
  dry_run_train (mkCodeGenWrapper "m" true 20 512 0) ⟨1, true⟩ false false
    (fun _ _ _ _ => "") rfl

/-- C10: however an `EvaluationMetrics` is constructed, `to_dict` has
exactly the four keys in order; `pass_at_k` and `cwe_breakdown` are always
dict values (a `None` argument becomes the empty dict), while an omitted
`security_rate` or `total_vulnerabilities` stays `None` rather than zero. -/
theorem metrics_to_dict_shape (sr : Option Rat)
    (pk : Option (List (String × Rat))) (tv : Option Int)
    (cb : Option (List (String × Nat))) :
    (to_dict (mkEvaluationMetrics sr pk tv cb)).map Prod.fst =
      ["security_rate", "pass_at_k", "total_vulnerabilities", "cwe_breakdown"] ∧
    (∃ d, dictGet? (to_dict (mkEvaluationMetrics sr pk tv cb)) "pass_at_k" =
      some (.ratDict d)) ∧
    (∃ d, dictGet? (to_dict (mkEvaluationMetrics sr pk tv cb)) "cwe_breakdown" =
      some (.natDict d)) ∧
    (pk = none → (mkEvaluationMetrics sr pk tv cb).pass_at_k = []) ∧
    (cb = none → (mkEvaluationMetrics sr pk tv cb).cwe_breakdown = []) ∧
    (sr = none →
      dictGet? (to_dict (mkEvaluationMetrics sr pk tv cb)) "security_rate" =
        some .noneV) ∧
    (tv = none →
      dictGet? (to_dict (mkEvaluationMetrics sr pk tv cb)) "total_vulnerabilities" =
        some .noneV) := by
  cases sr <;> cases pk <;> cases tv <;> cases cb <;>
    simp [to_dict, mkEvaluationMetrics, dictGet?]

/-- Witness for C10 with every argument omitted (`None`). -/
theorem metrics_to_dict_shape_witness :
    (to_dict (mkEvaluationMetrics none none none none)).map Prod.fst =
      ["security_rate", "pass_at_k", "total_vulnerabilities", "cwe_breakdown"] ∧
    (mkEvaluationMetrics none none none none).pass_at_k = [] ∧
    (mkEvaluationMetrics none none none none).cwe_breakdown = [] ∧
    dictGet? (to_dict (mkEvaluationMetrics none none none none)) "security_rate" =
      some .noneV ∧
    dictGet? (to_dict (mkEvaluationMetrics none none none none))
      "total_vulnerabilities" = some .noneV :=
  ⟨(metrics_to_dict_shape none none none none).1,
   (metrics_to_dict_shape none none none none).2.2.2.1 rfl,
   (metrics_to_dict_shape none none none none).2.2.2.2.1 rfl,
   (metrics_to_dict_shape none none none none).2.2.2.2.2.1 rfl,
   (metrics_to_dict_shape none none none none).2.2.2.2.2.2 rfl⟩

end Sven
